import Mathlib

/-!
Shallow embedding of django-tumblelog's core model layer
(src/tumblelog/models/base.py): the identity-record layer (the generic
`Post` model) with slug-uniqueness validation and save-time
synchronization, and the oEmbed metadata refresh protocol of
`BaseOembedPostType` and its variants.

Conventions: timestamps are integers (seconds); the relational store is a
list of identity records plus an id counter; Python in-place mutation
together with a possibly raised exception is embedded as a pair of the
final object state and an optional error.
-/

/-- An identity record: one row of the generic `Post` model
(base.py lines 90-114) — a (post_type, object_id) generic foreign key to
one concrete content item plus denormalized lookup fields. -/
structure PostRecord where
  id : Nat
  postType : String
  objectId : Nat
  status : String
  date_added : Int
  date_modified : Int
  date_published : Option Int
  slug : String
  author : Option String
  deriving DecidableEq

/-- The in-memory state of a concrete content item: the `BasePostType`
fields relevant to validation and identity-record synchronization
(base.py lines 150-175; status and the timestamps come from
PostMetaMixin). `id = none` means the item has never been persisted. -/
structure PostItem where
  id : Option Nat
  title : String
  slug : String
  author : Option String
  status : String
  date_added : Int
  date_modified : Int
  date_published : Option Int
  deriving DecidableEq

/-- The `self.post` generic relation (base.py lines 162-163): a record
points back at this item when its type tag matches and its object id
equals the item's primary key. An unsaved item (`id = none`) is
referenced by no record. -/
def references (ctype : String) (item : PostItem) (p : PostRecord) : Bool :=
  p.postType == ctype && some p.objectId == item.id

/-- Errors that can escape `clean_fields`: the slug-uniqueness
`ValidationError` (base.py line 192), or `MultipleObjectsReturned` from
`Post.objects.get` when several records share the slug. -/
inductive CleanError
  | duplicateSlug
  | multipleObjectsReturned
  deriving DecidableEq

/-- The lookup `Post.objects.get(slug=self.slug)` (base.py line 195): `DoesNotExist`
becomes `none`; more than one match raises `MultipleObjectsReturned`. -/
def post_objects_get_slug (posts : List PostRecord) (s : String) :
    Except CleanError (Option PostRecord) :=
  match posts.filter (fun p => p.slug == s) with
  | [] => .ok none
  | [p] => .ok (some p)
  | _ => .error .multipleObjectsReturned

/-- The validation hook `BasePostType.clean_fields` (base.py lines 183-209): look up any
record with this slug; if found, compare it with the item's own record
(`self.post.all()[0]`, whose `IndexError` on an item with no record is
caught); a foreign record with the same slug is a duplicate-slug
validation error. -/
def clean_fields (ctype : String) (item : PostItem) (posts : List PostRecord) :
    Except CleanError Unit :=
  match post_objects_get_slug posts item.slug with
  | .error e => .error e
  | .ok none => .ok ()
  | .ok (some matching) =>
      match (posts.filter (references ctype item)).head? with
      | none => .error .duplicateSlug
      | some own => if matching.id == own.id then .ok () else .error .duplicateSlug

/-- The persistent store of identity records: the `Post` table plus the
store's id sequence. -/
structure Store where
  posts : List PostRecord
  nextPostId : Nat
  deriving DecidableEq

/-- Store well-formedness: record ids are pairwise distinct and below the
id sequence counter (the relational store's primary-key discipline). -/
def Store.WF (s : Store) : Prop :=
  (s.posts.map (fun p => p.id)).Nodup ∧ ∀ p ∈ s.posts, p.id < s.nextPostId

/-- Modelled from the spec: the single-character status enum's default
draft marker (the status field and its default live in `PostMetaMixin`,
which is not under src/). -/
def STATUS_DRAFT : String := "d"

/-- The denormalized fields copied from a content item onto its identity
record at save time (base.py lines 222-227). -/
structure Denorm where
  status : String
  date_added : Int
  date_modified : Int
  date_published : Option Int
  slug : String
  author : Option String
  deriving DecidableEq

/-- The denormalized projection of a content item. -/
def denorm_of (item : PostItem) : Denorm :=
  { status := item.status, date_added := item.date_added,
    date_modified := item.date_modified, date_published := item.date_published,
    slug := item.slug, author := item.author }

/-- Overwrite a record's denormalized fields (base.py lines 222-227). -/
def apply_denorm (p : PostRecord) (d : Denorm) : PostRecord :=
  { p with
    status := d.status
    date_added := d.date_added
    date_modified := d.date_modified
    date_published := d.date_published
    slug := d.slug
    author := d.author }

/-- Whether a record carries the given (reference type, reference id)
pair. -/
def pairMatch (ctype : String) (oid : Nat) (p : PostRecord) : Bool :=
  p.postType == ctype && p.objectId == oid

/-- Modelled from the spec: `get_or_create_for(reference_type,
reference_id)` (spec section 4.1) — the Django manager call
`Post.objects.get_or_create(post_type=..., object_id=...)` used at
base.py lines 218-221 lives outside src/. It returns the existing record
for the pair, or creates and persists one with field defaults. -/
def post_get_or_create (store : Store) (ctype : String) (oid : Nat) :
    PostRecord × Store :=
  match store.posts.find? (pairMatch ctype oid) with
  | some p => (p, store)
  | none =>
      let p : PostRecord :=
        { id := store.nextPostId, postType := ctype, objectId := oid,
          status := STATUS_DRAFT, date_added := 0, date_modified := 0,
          date_published := none, slug := "", author := none }
      (p, { posts := store.posts ++ [p], nextPostId := store.nextPostId + 1 })

/-- Modelled from the spec: `post.save()` on an already-persisted record
(base.py line 228) writes it back by primary key (relational store
contract, spec section 6). -/
def post_write (store : Store) (p : PostRecord) : Store :=
  { store with posts := store.posts.map (fun q => if q.id == p.id then p else q) }

/-- The identity-record upsert performed by `BasePostType.save`
(base.py lines 217-228): get or create the record for (ctype, oid), then
overwrite its denormalized fields and write it back. -/
def upsert_identity (store : Store) (ctype : String) (oid : Nat) (d : Denorm) :
    Store :=
  let r := post_get_or_create store ctype oid
  post_write r.2 (apply_denorm r.1 d)

/-- Modelled from the spec: `super(BasePostType, self).save()` — the
relational store persists the item's own fields, assigning a fresh
numeric id on first save; `PostMetaMixin` (not under src/) sets
date_added once at creation and refreshes date_modified at every save. -/
def persist_item (item : PostItem) (now : Int) (freshId : Nat) :
    PostItem × Nat :=
  match item.id with
  | none => ({ item with
               id := some freshId
               date_added := now
               date_modified := now }, freshId)
  | some i => ({ item with date_modified := now }, i)

/-- The save hook `BasePostType.save` (base.py lines 211-228): persist the item, then
upsert its identity record and overwrite the denormalized fields with the
item's current values. -/
def base_post_type_save (ctype : String) (item : PostItem) (now : Int)
    (freshId : Nat) (store : Store) : PostItem × Store :=
  let r := persist_item item now freshId
  (r.1, upsert_identity store ctype r.2 (denorm_of r.1))

/-- Modelled from the spec: the framework triggers the validate hook
before persistence (spec sections 2 and 4.2: new -> validated ->
persisted -> synced); on validation failure nothing is persisted and the
error is returned to the caller. -/
def lifecycle_save (ctype : String) (item : PostItem) (now : Int)
    (freshId : Nat) (store : Store) :
    Option PostItem × Store × Option CleanError :=
  match clean_fields ctype item store.posts with
  | .error e => (none, store, some e)
  | .ok _ =>
      let r := base_post_type_save ctype item now freshId store
      (some r.1, r.2, none)

/-- The number of identity records carrying a given (type, id) pair. -/
def countPair (store : Store) (ctype : String) (oid : Nat) : Nat :=
  (store.posts.filter (pairMatch ctype oid)).length

/-! ### List helper lemmas -/

theorem filter_key_len_le_one {α β : Type} [DecidableEq β] (f : α → β) (c : β)
    (l : List α) (h : (l.map f).Nodup) :
    (l.filter (fun a => f a == c)).length ≤ 1 := by
  induction l with
  | nil => simp
  | cons a t ih =>
    rw [List.map_cons, List.nodup_cons] at h
    rw [List.filter_cons]
    by_cases hfa : f a = c
    · have ht : t.filter (fun x => f x == c) = [] := by
        refine List.filter_eq_nil_iff.mpr ?_
        intro b hb hbc
        refine h.1 ?_
        rw [List.mem_map]
        refine ⟨b, hb, ?_⟩
        rw [beq_iff_eq] at hbc
        rw [hbc, hfa]
      simp [hfa, ht]
    · simp only [beq_iff_eq, hfa]
      simpa using ih h.2

theorem two_le_length_of_two_mem {α : Type} :
    ∀ (l : List α) (a b : α), a ∈ l → b ∈ l → a ≠ b → 2 ≤ l.length := by
  intro l a b ha hb hab
  cases l with
  | nil => cases ha
  | cons x t =>
    rcases List.mem_cons.mp ha with rfl | ha2
    · rcases List.mem_cons.mp hb with rfl | hb2
      · exact absurd rfl hab
      · have h1 : 0 < t.length := List.length_pos.mpr (List.ne_nil_of_mem hb2)
        simp only [List.length_cons]
        omega
    · have h1 : 0 < t.length := List.length_pos.mpr (List.ne_nil_of_mem ha2)
      simp only [List.length_cons]
      omega

theorem length_filter_map_congr {α : Type} (p : α → Bool) (f : α → α)
    (l : List α) (h : ∀ a ∈ l, p (f a) = p a) :
    ((l.map f).filter p).length = (l.filter p).length := by
  induction l with
  | nil => rfl
  | cons a t ih =>
    rw [List.map_cons, List.filter_cons, List.filter_cons,
      h a (List.mem_cons_self a t)]
    by_cases hpa : p a = true
    · simp only [hpa, if_true, List.length_cons]
      rw [ih (fun b hb => h b (List.mem_cons_of_mem a hb))]
    · rw [Bool.not_eq_true] at hpa
      simp only [hpa, Bool.false_eq_true, if_false]
      exact ih (fun b hb => h b (List.mem_cons_of_mem a hb))

/-! ### Slug-uniqueness validation: characterization -/

/-- Helper: under the store invariants (unique slugs, unique record ids,
at most one record referencing the item), `clean_fields` rejects exactly
when some record carries the item's slug without being the item's own
record. -/
theorem clean_fields_error_char (ctype : String) (item : PostItem)
    (posts : List PostRecord)
    (Hslug : (posts.map (fun p => p.slug)).Nodup)
    (Hids : (posts.map (fun p => p.id)).Nodup)
    (Href : ∀ p ∈ posts, ∀ q ∈ posts, references ctype item p = true →
      references ctype item q = true → p = q) :
    clean_fields ctype item posts = .error .duplicateSlug ↔
      ∃ p ∈ posts, p.slug = item.slug ∧ references ctype item p = false := by
  have hlen := filter_key_len_le_one (fun p => p.slug) item.slug posts Hslug
  rcases hms : posts.filter (fun p => p.slug == item.slug) with _ | ⟨m, ms⟩
  · rw [show clean_fields ctype item posts = .ok () by
      simp [clean_fields, post_objects_get_slug, hms]]
    constructor
    · intro h
      exact absurd h (by simp)
    · rintro ⟨p, hp, hps, -⟩
      have : p ∈ posts.filter (fun p => p.slug == item.slug) :=
        List.mem_filter.mpr ⟨hp, by simp [hps]⟩
      rw [hms] at this
      cases this
  · have hmsnil : ms = [] := by
      rw [hms] at hlen
      cases ms with
      | nil => rfl
      | cons y ys => simp at hlen
    subst hmsnil
    have hmmem : m ∈ posts ∧ m.slug = item.slug := by
      have := List.mem_filter.mp (hms ▸ List.mem_cons_self m [])
      exact ⟨this.1, by simpa using this.2⟩
    have hget : post_objects_get_slug posts item.slug = .ok (some m) := by
      simp [post_objects_get_slug, hms]
    rcases hon : posts.filter (references ctype item) with _ | ⟨own, rest⟩
    · have hclean : clean_fields ctype item posts = .error .duplicateSlug := by
        simp [clean_fields, hget, hon]
      rw [hclean]
      constructor
      · intro _
        refine ⟨m, hmmem.1, hmmem.2, ?_⟩
        by_contra hrm
        rw [Bool.not_eq_false] at hrm
        have : m ∈ posts.filter (references ctype item) :=
          List.mem_filter.mpr ⟨hmmem.1, hrm⟩
        rw [hon] at this
        cases this
      · intro _
        rfl
    · have hownmem : own ∈ posts ∧ references ctype item own = true :=
        List.mem_filter.mp (hon ▸ List.mem_cons_self own rest)
      by_cases hid : m.id = own.id
      · have hmo : m = own :=
          List.inj_on_of_nodup_map Hids hmmem.1 hownmem.1 hid
        have hclean : clean_fields ctype item posts = .ok () := by
          simp [clean_fields, hget, hon, hid]
        rw [hclean]
        constructor
        · intro h
          exact absurd h (by simp)
        · rintro ⟨p, hp, hps, hpf⟩
          have : p ∈ posts.filter (fun p => p.slug == item.slug) :=
            List.mem_filter.mpr ⟨hp, by simp [hps]⟩
          rw [hms] at this
          rcases List.mem_singleton.mp this with rfl
          rw [hmo, hownmem.2] at hpf
          cases hpf
      · have hclean : clean_fields ctype item posts = .error .duplicateSlug := by
          simp [clean_fields, hget, hon, hid]
        rw [hclean]
        constructor
        · intro _
          refine ⟨m, hmmem.1, hmmem.2, ?_⟩
          by_contra hrm
          rw [Bool.not_eq_false] at hrm
          exact hid (congrArg (fun p => p.id)
            (Href m hmmem.1 own hownmem.1 hrm hownmem.2))
        · intro _
          rfl

/-- C4: validation fails with the duplicate-slug error exactly when some
existing identity record carries the item's slug and is not the item's
own record; an item with no record yet passes when no other record has
the slug and fails when one does. -/
theorem c4_validate_duplicate_iff (ctype : String) (item : PostItem)
    (posts : List PostRecord)
    (Hslug : (posts.map (fun p => p.slug)).Nodup)
    (Hids : (posts.map (fun p => p.id)).Nodup)
    (Href : ∀ p ∈ posts, ∀ q ∈ posts, references ctype item p = true →
      references ctype item q = true → p = q) :
    clean_fields ctype item posts = .error .duplicateSlug ↔
      ∃ p ∈ posts, p.slug = item.slug ∧ references ctype item p = false :=
  clean_fields_error_char ctype item posts Hslug Hids Href

/-- C2: saving an item whose slug equals the slug of a record that is not
its own fails with the duplicate-slug error before persistence, and the
identity-record store is unchanged. -/
theorem c2_duplicate_slug_save_rejected (ctype : String) (item : PostItem)
    (now : Int) (freshId : Nat) (store : Store)
    (Hslug : (store.posts.map (fun p => p.slug)).Nodup)
    (Hids : (store.posts.map (fun p => p.id)).Nodup)
    (Href : ∀ p ∈ store.posts, ∀ q ∈ store.posts,
      references ctype item p = true → references ctype item q = true → p = q)
    (Hdup : ∃ p ∈ store.posts, p.slug = item.slug ∧
      references ctype item p = false) :
    lifecycle_save ctype item now freshId store =
      (none, store, some .duplicateSlug) := by
  have hclean : clean_fields ctype item store.posts = .error .duplicateSlug :=
    (clean_fields_error_char ctype item store.posts Hslug Hids Href).mpr Hdup
  simp [lifecycle_save, hclean]

/-! ### Identity-record upsert: specification lemmas -/

theorem pairMatch_apply_denorm (ctype : String) (oid : Nat) (p : PostRecord)
    (d : Denorm) : pairMatch ctype oid (apply_denorm p d) = pairMatch ctype oid p :=
  rfl

theorem post_write_ids (store : Store) (p : PostRecord) :
    ((post_write store p).posts.map (fun q => q.id)) =
      store.posts.map (fun q => q.id) := by
  simp only [post_write]
  rw [List.map_map]
  refine List.map_congr_left ?_
  intro q hq
  simp only [Function.comp]
  by_cases h : q.id = p.id
  · simp [h]
  · simp [h]

/-- Writing back a denormalized update of the unique record for a pair
preserves well-formedness and the pair count, and leaves the pair's
record carrying exactly the written denormalized values. -/
theorem post_write_spec (store : Store) (ctype : String) (oid : Nat)
    (d : Denorm) (r : PostRecord)
    (hwf : store.WF) (hr : r ∈ store.posts)
    (hpm : pairMatch ctype oid r = true)
    (hcount : countPair store ctype oid = 1) :
    (post_write store (apply_denorm r d)).WF ∧
    countPair (post_write store (apply_denorm r d)) ctype oid = 1 ∧
    ∀ p ∈ (post_write store (apply_denorm r d)).posts,
      pairMatch ctype oid p = true →
        p.status = d.status ∧ p.date_added = d.date_added ∧
        p.date_modified = d.date_modified ∧
        p.date_published = d.date_published ∧
        p.slug = d.slug ∧ p.author = d.author := by
  obtain ⟨hids, hbound⟩ := hwf
  have hidr : (apply_denorm r d).id = r.id := rfl
  have hpoint : ∀ q ∈ store.posts,
      pairMatch ctype oid (if q.id == (apply_denorm r d).id
        then apply_denorm r d else q) = pairMatch ctype oid q := by
    intro q hq
    by_cases h : q.id = (apply_denorm r d).id
    · have hqr : q = r := List.inj_on_of_nodup_map hids hq hr (hidr ▸ h)
      simp [h, hqr, hidr, pairMatch_apply_denorm]
    · simp [h]
  refine ⟨⟨?_, ?_⟩, ?_, ?_⟩
  · rw [post_write_ids]
    exact hids
  · intro p hp
    simp only [post_write, List.mem_map] at hp
    obtain ⟨q, hq, hfq⟩ := hp
    by_cases h : q.id = (apply_denorm r d).id
    · rw [← hfq]
      simp only [h, beq_self_eq_true, if_true]
      rw [show (post_write store (apply_denorm r d)).nextPostId = store.nextPostId from rfl]
      rw [hidr]
      exact hbound r hr
    · rw [← hfq]
      simp only [h, beq_iff_eq, if_neg h]
      exact hbound q hq
  · unfold countPair
    simp only [post_write]
    rw [length_filter_map_congr (pairMatch ctype oid) _ store.posts hpoint]
    exact hcount
  · intro p hp hppm
    simp only [post_write, List.mem_map] at hp
    obtain ⟨q, hq, hfq⟩ := hp
    by_cases h : q.id = (apply_denorm r d).id
    · rw [← hfq]
      simp only [h, beq_self_eq_true, if_true]
      simp [apply_denorm]
    · rw [← hfq] at hppm ⊢
      simp only [h, beq_iff_eq, if_neg h] at hppm ⊢
      exfalso
      have hqr : q ≠ r := fun he => h (by rw [he, hidr])
      have hqmem : q ∈ store.posts.filter (pairMatch ctype oid) :=
        List.mem_filter.mpr ⟨hq, hppm⟩
      have hrmem : r ∈ store.posts.filter (pairMatch ctype oid) :=
        List.mem_filter.mpr ⟨hr, hpm⟩
      have := two_le_length_of_two_mem _ q r hqmem hrmem hqr
      rw [show (store.posts.filter (pairMatch ctype oid)).length =
        countPair store ctype oid from rfl, hcount] at this
      omega

/-- The upsert lookup `get_or_create` returns a member record carrying the pair, preserves
well-formedness, and brings the pair count to exactly one when it was at
most one. -/
theorem post_get_or_create_spec (store : Store) (ctype : String) (oid : Nat)
    (hwf : store.WF) (hle : countPair store ctype oid ≤ 1) :
    (post_get_or_create store ctype oid).1 ∈
      (post_get_or_create store ctype oid).2.posts ∧
    pairMatch ctype oid (post_get_or_create store ctype oid).1 = true ∧
    (post_get_or_create store ctype oid).2.WF ∧
    countPair (post_get_or_create store ctype oid).2 ctype oid = 1 := by
  obtain ⟨hids, hbound⟩ := hwf
  rcases hfind : store.posts.find? (pairMatch ctype oid) with _ | p
  · have hnone : ∀ p ∈ store.posts, ¬ pairMatch ctype oid p = true :=
      fun p hp => by simpa using List.find?_eq_none.mp hfind p hp
    have hcnt0 : countPair store ctype oid = 0 := by
      unfold countPair
      rw [List.filter_eq_nil_iff.mpr hnone]
      rfl
    simp only [post_get_or_create, hfind]
    refine ⟨?_, ?_, ⟨?_, ?_⟩, ?_⟩
    · simp
    · simp [pairMatch]
    · rw [List.map_append]
      rw [List.nodup_append]
      refine ⟨hids, by simp, ?_⟩
      intro x hx
      simp only [List.mem_map] at hx
      obtain ⟨q, hq, hfq⟩ := hx
      have := hbound q hq
      simp only [List.map_cons, List.map_nil, List.mem_singleton]
      omega
    · intro q hq
      rcases List.mem_append.mp hq with hq1 | hq2
      · exact Nat.lt_succ_of_lt (hbound q hq1)
      · rcases List.mem_singleton.mp hq2 with rfl
        exact Nat.lt_succ_self _
    · unfold countPair
      simp only [List.filter_append]
      rw [List.filter_eq_nil_iff.mpr hnone]
      simp [pairMatch]
  · have hpmem : p ∈ store.posts := List.mem_of_find?_eq_some hfind
    have hppm : pairMatch ctype oid p = true := List.find?_some hfind
    have hge : 1 ≤ countPair store ctype oid := by
      unfold countPair
      have : p ∈ store.posts.filter (pairMatch ctype oid) :=
        List.mem_filter.mpr ⟨hpmem, hppm⟩
      exact List.length_pos.mpr (List.ne_nil_of_mem this)
    simp only [post_get_or_create, hfind]
    exact ⟨hpmem, hppm, ⟨hids, hbound⟩, by omega⟩

/-- The identity-record upsert of `BasePostType.save`: starting from a
well-formed store holding at most one record for the pair, it leaves
exactly one record for the pair, carrying the written denormalized
values, and preserves well-formedness. -/
theorem upsert_identity_spec (store : Store) (ctype : String) (oid : Nat)
    (d : Denorm) (hwf : store.WF) (hle : countPair store ctype oid ≤ 1) :
    (upsert_identity store ctype oid d).WF ∧
    countPair (upsert_identity store ctype oid d) ctype oid = 1 ∧
    ∀ p ∈ (upsert_identity store ctype oid d).posts,
      pairMatch ctype oid p = true →
        p.status = d.status ∧ p.date_added = d.date_added ∧
        p.date_modified = d.date_modified ∧
        p.date_published = d.date_published ∧
        p.slug = d.slug ∧ p.author = d.author := by
  obtain ⟨hmem, hpm, hwf2, hcnt⟩ := post_get_or_create_spec store ctype oid hwf hle
  have := post_write_spec (post_get_or_create store ctype oid).2 ctype oid d
    (post_get_or_create store ctype oid).1 hwf2 hmem hpm hcnt
  exact this

/-- C6: the identity-record upsert is idempotent — two upserts in a row
for the same (type, id) pair leave exactly one record for the pair, and
the second call's denormalized values take effect. -/
theorem c6_upsert_idempotent (store : Store) (ctype : String) (oid : Nat)
    (d1 d2 : Denorm) (hwf : store.WF)
    (hle : countPair store ctype oid ≤ 1) :
    countPair (upsert_identity (upsert_identity store ctype oid d1)
      ctype oid d2) ctype oid = 1 ∧
    ∀ p ∈ (upsert_identity (upsert_identity store ctype oid d1)
      ctype oid d2).posts,
      pairMatch ctype oid p = true →
        p.status = d2.status ∧ p.date_added = d2.date_added ∧
        p.date_modified = d2.date_modified ∧
        p.date_published = d2.date_published ∧
        p.slug = d2.slug ∧ p.author = d2.author := by
  obtain ⟨hwf1, hcnt1, -⟩ := upsert_identity_spec store ctype oid d1 hwf hle
  obtain ⟨-, hcnt2, hden2⟩ := upsert_identity_spec
    (upsert_identity store ctype oid d1) ctype oid d2 hwf1 (by omega)
  exact ⟨hcnt2, hden2⟩

/-- C5: first save of an item with no prior identity record creates
exactly one record referencing the item, whose denormalized fields equal
the saved item's current values. -/
theorem c5_first_save_one_record (ctype : String) (item : PostItem)
    (now : Int) (freshId : Nat) (store : Store)
    (hwf : store.WF) (hnew : item.id = none)
    (hnone : countPair store ctype freshId = 0) :
    countPair (base_post_type_save ctype item now freshId store).2
      ctype freshId = 1 ∧
    ∀ p ∈ (base_post_type_save ctype item now freshId store).2.posts,
      pairMatch ctype freshId p = true →
        p.status = (base_post_type_save ctype item now freshId store).1.status ∧
        p.date_added =
          (base_post_type_save ctype item now freshId store).1.date_added ∧
        p.date_modified =
          (base_post_type_save ctype item now freshId store).1.date_modified ∧
        p.date_published =
          (base_post_type_save ctype item now freshId store).1.date_published ∧
        p.slug = (base_post_type_save ctype item now freshId store).1.slug ∧
        p.author = (base_post_type_save ctype item now freshId store).1.author := by
  have hpi : persist_item item now freshId =
      ({ item with
         id := some freshId
         date_added := now
         date_modified := now }, freshId) := by
    simp [persist_item, hnew]
  have hsave : base_post_type_save ctype item now freshId store =
      ((persist_item item now freshId).1,
        upsert_identity store ctype freshId
          (denorm_of (persist_item item now freshId).1)) := by
    simp [base_post_type_save, hpi]
  obtain ⟨-, hcnt, hden⟩ := upsert_identity_spec store ctype freshId
    (denorm_of (persist_item item now freshId).1) hwf (by omega)
  rw [hsave]
  refine ⟨hcnt, ?_⟩
  intro p hp hppm
  obtain ⟨h1, h2, h3, h4, h5, h6⟩ := hden p hp hppm
  exact ⟨h1, h2, h3, h4, h5, h6⟩

/-! ### Concrete sample data for the base-model witnesses -/

instance (s : Store) : Decidable s.WF := by
  unfold Store.WF
  infer_instance

def samplePost : PostRecord :=
  { id := 1, postType := "article", objectId := 7, status := STATUS_DRAFT,
    date_added := 0, date_modified := 0, date_published := none,
    slug := "hello", author := none }

def sampleItem : PostItem :=
  { id := none, title := "Hello", slug := "hello", author := none,
    status := STATUS_DRAFT, date_added := 0, date_modified := 0,
    date_published := none }

def sampleStore : Store := { posts := [samplePost], nextPostId := 2 }

def sampleDenormA : Denorm :=
  { status := "d", date_added := 1, date_modified := 1, date_published := none,
    slug := "a", author := none }

def sampleDenormB : Denorm :=
  { status := "p", date_added := 2, date_modified := 3,
    date_published := some 4, slug := "b", author := some "amy" }

def freshItem : PostItem :=
  { id := none, title := "Other", slug := "other", author := none,
    status := STATUS_DRAFT, date_added := 0, date_modified := 0,
    date_published := none }

theorem c2_duplicate_slug_save_rejected_witness :
    lifecycle_save "article" sampleItem 5 9 sampleStore =
      (none, sampleStore, some .duplicateSlug) :=
  c2_duplicate_slug_save_rejected "article" sampleItem 5 9 sampleStore
    (by decide) (by decide) (by decide) (by decide)

theorem c4_validate_duplicate_iff_witness :
    clean_fields "article" sampleItem [samplePost] = .error .duplicateSlug ↔
      ∃ p ∈ [samplePost], p.slug = sampleItem.slug ∧
        references "article" sampleItem p = false :=
  c4_validate_duplicate_iff "article" sampleItem [samplePost]
    (by decide) (by decide) (by decide)

theorem c5_first_save_one_record_witness :
    countPair (base_post_type_save "article" freshItem 5 9 sampleStore).2
      "article" 9 = 1 ∧
    ∀ p ∈ (base_post_type_save "article" freshItem 5 9 sampleStore).2.posts,
      pairMatch "article" 9 p = true →
        p.status = (base_post_type_save "article" freshItem 5 9 sampleStore).1.status ∧
        p.date_added =
          (base_post_type_save "article" freshItem 5 9 sampleStore).1.date_added ∧
        p.date_modified =
          (base_post_type_save "article" freshItem 5 9 sampleStore).1.date_modified ∧
        p.date_published =
          (base_post_type_save "article" freshItem 5 9 sampleStore).1.date_published ∧
        p.slug = (base_post_type_save "article" freshItem 5 9 sampleStore).1.slug ∧
        p.author = (base_post_type_save "article" freshItem 5 9 sampleStore).1.author :=
  c5_first_save_one_record "article" freshItem 5 9 sampleStore
    (by decide) (by decide) (by decide)

theorem c6_upsert_idempotent_witness :
    countPair (upsert_identity (upsert_identity sampleStore "article" 7
      sampleDenormA) "article" 7 sampleDenormB) "article" 7 = 1 ∧
    ∀ p ∈ (upsert_identity (upsert_identity sampleStore "article" 7
      sampleDenormA) "article" 7 sampleDenormB).posts,
      pairMatch "article" 7 p = true →
        p.status = sampleDenormB.status ∧
        p.date_added = sampleDenormB.date_added ∧
        p.date_modified = sampleDenormB.date_modified ∧
        p.date_published = sampleDenormB.date_published ∧
        p.slug = sampleDenormB.slug ∧
        p.author = sampleDenormB.author :=
  c6_upsert_idempotent sampleStore "article" 7 sampleDenormA sampleDenormB
    (by decide) (by decide)

/-! ### oEmbed metadata refresh protocol (`BaseOembedPostType`) -/

/-- A JSON-ish value as it appears in an oEmbed response or a local
model attribute. -/
inductive OValue
  | null
  | str (s : String)
  | int (n : Int)
  deriving DecidableEq

/-- The decoded JSON object returned by the provider. -/
abbrev OembedResponse := List (String × OValue)

/-- An entry of an `oembed_map` table (base.py lines 270-274, 349-356,
370-377, 399-406): either a bare string or an explicit
(remote key, local field) two-tuple. -/
inductive OembedMapping
  | name (s : String)
  | pair (p f : String)
  deriving DecidableEq

/-- The tuple unpacking `prop, field = mapping` with its
`except ValueError: prop, field = mapping, mapping` fallback
(base.py lines 321-324): a two-tuple unpacks into its components; a
string unpacks into its two characters when it has exactly two,
otherwise unpacking raises ValueError and the string is used for both
sides. -/
def unpackMapping : OembedMapping → String × String
  | .pair p f => (p, f)
  | .name s => if s.length = 2 then (s.take 1, s.drop 1) else (s, s)

/-- Association-list lookup for responses and attribute dictionaries. -/
def assocGet : List (String × OValue) → String → Option OValue
  | [], _ => none
  | (k, v) :: rest, key => if k = key then some v else assocGet rest key

/-- Association-list update (used for `setattr`). -/
def assocSet : List (String × OValue) → String → OValue → List (String × OValue)
  | [], key, v => [(key, v)]
  | (k, w) :: rest, key, v =>
      if k = key then (key, v) :: rest else (k, w) :: assocSet rest key v

/-- The in-memory state of an oEmbed-backed content item: primary key,
cache control fields, and the variant's mapped local attributes as an
attribute dictionary (base.py lines 249-268 plus variant fields). -/
structure OembedItem where
  pk : Option Nat
  cache_age : Int
  date_updated : Option Int
  attrs : List (String × OValue)
  deriving DecidableEq

/-- The check `hasattr(self, field)` restricted to the mapped model attributes. -/
def hasattr (item : OembedItem) (f : String) : Bool :=
  (assocGet item.attrs f).isSome

/-- The assignment `setattr(self, field, value)`. -/
def setattr (item : OembedItem) (f : String) (v : OValue) : OembedItem :=
  { item with attrs := assocSet item.attrs f v }

/-- Errors raised by the refresh machinery: `TypeError` from subscripting
a `None` response, `KeyError` from a mapped key absent from the response
(both in `oembed_map_values`), `HTTPError` from the transport, and the
`TypeError` from adding a timedelta to a `None` `date_updated` in
`__init__`. -/
inductive OembedError
  | typeError
  | keyError (k : String)
  | httpError
  deriving DecidableEq

/-- An oEmbed variant: its declared field-mapping table and its
(overridable) `oembed_clean_value` transform hook, whose default is the
identity (base.py lines 330-331). -/
structure OembedVariant where
  oembed_map : List OembedMapping
  oembed_clean_value : String → OValue → OValue := fun _ v => v

/-- One iteration of the `oembed_map_values` loop (base.py lines
320-328): unpack the mapping entry, and if the local attribute exists,
assign it the transformed response value; subscripting a `None` response
raises TypeError and a missing key raises KeyError. -/
def oembed_apply_one (v : OembedVariant) (item : OembedItem)
    (response : Option OembedResponse) (m : OembedMapping) :
    OembedItem × Option OembedError :=
  if hasattr item (unpackMapping m).2 then
    match response with
    | none => (item, some .typeError)
    | some r =>
        match assocGet r (unpackMapping m).1 with
        | none => (item, some (.keyError (unpackMapping m).1))
        | some value =>
            (setattr item (unpackMapping m).2
              (v.oembed_clean_value (unpackMapping m).2 value), none)
  else (item, none)

/-- The `oembed_map_values` loop over the mapping table, stopping at the
first raised error with the mutations made so far. -/
def oembed_map_go (v : OembedVariant) (response : Option OembedResponse) :
    OembedItem → List OembedMapping → OembedItem × Option OembedError
  | item, [] => (item, none)
  | item, m :: ms =>
      match oembed_apply_one v item response m with
      | (item2, none) => oembed_map_go v response item2 ms
      | (item2, some e) => (item2, some e)

/-- The loop `BaseOembedPostType.oembed_map_values` (base.py lines 319-328). -/
def oembed_map_values (v : OembedVariant) (item : OembedItem)
    (response : Option OembedResponse) : OembedItem × Option OembedError :=
  oembed_map_go v response item v.oembed_map

/-- The outcome of `consumer.embed(...)` for the remote provider: either
a decoded JSON response or a transport-level `urllib2.HTTPError`. -/
inductive RemoteOutcome
  | success (r : OembedResponse)
  | httpError
  deriving DecidableEq

/-- The fetch `BaseOembedPostType.oembed_retrieve` (base.py lines 310-317): on
`HTTPError`, re-raise when suppression is off, otherwise fall through
and return `None`. -/
def oembed_retrieve (remote : RemoteOutcome) (suppress_http_errors : Bool) :
    Except OembedError (Option OembedResponse) :=
  match remote with
  | .success r => .ok (some r)
  | .httpError =>
      if suppress_http_errors then .ok none else .error .httpError

/-- The refresh `BaseOembedPostType.oembed_update` (base.py lines 305-308): stamp
`date_updated` with the current time, retrieve (with the default error
suppression), then map the response's values onto the instance. -/
def oembed_update (v : OembedVariant) (item : OembedItem) (now : Int)
    (remote : RemoteOutcome) : OembedItem × Option OembedError :=
  let item1 := { item with date_updated := some now }
  match oembed_retrieve remote true with
  | .error e => (item1, some e)
  | .ok response => oembed_map_values v item1 response

/-- The `BaseOembedPostType.__init__` freshness check (base.py lines
281-286): on a persisted instance, compute
`timedelta(seconds=cache_age) + date_updated` — a TypeError when
`date_updated` is None — and refresh when `now` is past the expiry. -/
def oembed_load (v : OembedVariant) (item : OembedItem) (now : Int)
    (remote : RemoteOutcome) : OembedItem × Option OembedError :=
  match item.pk with
  | none => (item, none)
  | some _ =>
      match item.date_updated with
      | none => (item, some .typeError)
      | some t =>
          if now > t + item.cache_age then oembed_update v item now remote
          else (item, none)

/-- The save hook `BaseOembedPostType.save` (base.py lines 333-335): always refresh
first, then persist. The `super().save()` persistence of the item's own
fields is modelled as appending the refreshed item to the persisted
list (the identity-record synchronization it also performs is verified
separately on the base model). -/
def oembed_save (v : OembedVariant) (item : OembedItem) (now : Int)
    (remote : RemoteOutcome) (saved : List OembedItem) :
    (OembedItem × List OembedItem) × Option OembedError :=
  match oembed_update v item now remote with
  | (item1, some e) => ((item1, saved), some e)
  | (item1, none) => ((item1, saved ++ [item1]), none)

/-- The base mapping table (base.py lines 270-274). -/
def base_oembed_map : List OembedMapping :=
  [.name "version", .name "provider_name", .name "provider_url"]

/-- The photo variant's mapping table (base.py lines 349-356). -/
def photo_oembed_map : List OembedMapping :=
  [.name "version", .name "provider_name", .name "provider_url",
   .name "width", .name "height", .pair "url" "image_url"]

/-- The video variant's mapping table (base.py lines 370-377). -/
def video_oembed_map : List OembedMapping :=
  [.name "version", .name "provider_name", .name "provider_url",
   .name "width", .name "height", .pair "html" "embed"]

/-- The rich variant's mapping table (base.py lines 399-406). -/
def rich_oembed_map : List OembedMapping :=
  [.name "version", .name "provider_name", .name "provider_url",
   .name "width", .name "height", .pair "html" "embed"]

/-- The class `BaseOembedPostType` as a variant (default transform hook). -/
def baseOembedVariant : OembedVariant := { oembed_map := base_oembed_map }

/-- The variant `BaseOembedPhoto` (base.py lines 338-356). -/
def photoOembedVariant : OembedVariant := { oembed_map := photo_oembed_map }

/-- The variant `BaseOembedVideo` (base.py lines 359-377). -/
def videoOembedVariant : OembedVariant := { oembed_map := video_oembed_map }

/-- The variant `BaseOembedLink` (base.py lines 380-385): overrides nothing, so it
inherits the base mapping table. -/
def linkOembedVariant : OembedVariant := { oembed_map := base_oembed_map }

/-- The variant `BaseOembedRich` (base.py lines 388-406). -/
def richOembedVariant : OembedVariant := { oembed_map := rich_oembed_map }

/-- The concrete variants declared in the source. -/
def declaredVariants : List OembedVariant :=
  [baseOembedVariant, photoOembedVariant, videoOembedVariant,
   linkOembedVariant, richOembedVariant]

/-- Fresh (all-null) attribute dictionary over a list of field names. -/
def initAttrs (fields : List String) : List (String × OValue) :=
  fields.map (fun f => (f, OValue.null))

/-- The mapped model attributes present on every `BaseOembedPostType`
instance (base.py lines 254-268). -/
def baseOembedFields : List String :=
  ["caption", "version", "provider_name", "provider_url"]

/-- Photo variant attributes (base.py lines 339-344). -/
def photoOembedFields : List String :=
  baseOembedFields ++ ["width", "height", "image_url"]

/-- Video and rich variant attributes (base.py lines 360-365, 389-394). -/
def videoOembedFields : List String :=
  baseOembedFields ++ ["width", "height", "embed"]

/-! ### oEmbed refresh: preservation lemmas -/

theorem oembed_apply_one_meta (v : OembedVariant) (item : OembedItem)
    (response : Option OembedResponse) (m : OembedMapping) :
    (oembed_apply_one v item response m).1.pk = item.pk ∧
    (oembed_apply_one v item response m).1.cache_age = item.cache_age ∧
    (oembed_apply_one v item response m).1.date_updated = item.date_updated := by
  unfold oembed_apply_one
  split
  · split
    · exact ⟨rfl, rfl, rfl⟩
    · split
      · exact ⟨rfl, rfl, rfl⟩
      · exact ⟨rfl, rfl, rfl⟩
  · exact ⟨rfl, rfl, rfl⟩

theorem oembed_map_go_meta (v : OembedVariant)
    (response : Option OembedResponse) :
    ∀ (ms : List OembedMapping) (item : OembedItem),
      (oembed_map_go v response item ms).1.pk = item.pk ∧
      (oembed_map_go v response item ms).1.cache_age = item.cache_age ∧
      (oembed_map_go v response item ms).1.date_updated = item.date_updated := by
  intro ms
  induction ms with
  | nil => intro item; exact ⟨rfl, rfl, rfl⟩
  | cons m ms ih =>
    intro item
    have hm := oembed_apply_one_meta v item response m
    rcases hap : oembed_apply_one v item response m with ⟨item2, err⟩
    rw [hap] at hm
    unfold oembed_map_go
    rw [hap]
    cases err with
    | none =>
        obtain ⟨g1, g2, g3⟩ := ih item2
        exact ⟨g1.trans hm.1, g2.trans hm.2.1, g3.trans hm.2.2⟩
    | some e => exact hm

/-- A refresh attempt always stamps `date_updated = now`, whatever the
remote outcome and whatever mapping error may follow. -/
theorem oembed_update_date (v : OembedVariant) (item : OembedItem)
    (now : Int) (remote : RemoteOutcome) :
    (oembed_update v item now remote).1.date_updated = some now := by
  unfold oembed_update oembed_map_values
  rcases remote with r | _
  · simp only [oembed_retrieve]
    exact (oembed_map_go_meta v (some r) v.oembed_map _).2.2
  · simp only [oembed_retrieve, if_true]
    exact (oembed_map_go_meta v none v.oembed_map _).2.2

theorem assocGet_assocSet_isSome (key g : String) (v : OValue) :
    ∀ l : List (String × OValue), (assocGet l g).isSome = true →
      (assocGet (assocSet l key v) g).isSome = true := by
  intro l
  induction l with
  | nil => intro h; simp [assocGet] at h
  | cons kv rest ih =>
    rcases kv with ⟨k, w⟩
    intro h
    by_cases hk : k = key
    · subst hk
      by_cases hg : k = g
      · simp [assocSet, assocGet, hg]
      · simp only [assocSet, if_pos rfl]
        simp only [assocGet, if_neg hg] at h ⊢
        exact h
    · simp only [assocSet, if_neg hk]
      by_cases hg : k = g
      · simp [assocGet, hg]
      · simp only [assocGet, if_neg hg] at h ⊢
        exact ih h

theorem hasattr_setattr (item : OembedItem) (f g : String) (v : OValue)
    (h : hasattr item g = true) : hasattr (setattr item f v) g = true :=
  assocGet_assocSet_isSome f g v item.attrs h

/-- Stamping `date_updated` does not change the attribute dictionary. -/
theorem hasattr_stamp (item : OembedItem) (now : Int) (g : String) :
    hasattr { item with date_updated := some now } g = hasattr item g :=
  rfl

/-! ### oEmbed mapping: per-entry characterization -/

theorem oembed_apply_one_no_attr (v : OembedVariant) (item : OembedItem)
    (response : Option OembedResponse) (m : OembedMapping)
    (h : hasattr item (unpackMapping m).2 = false) :
    oembed_apply_one v item response m = (item, none) := by
  unfold oembed_apply_one
  rw [if_neg (by simp [h])]

theorem oembed_apply_one_none_response (v : OembedVariant) (item : OembedItem)
    (m : OembedMapping) (h : hasattr item (unpackMapping m).2 = true) :
    oembed_apply_one v item none m = (item, some .typeError) := by
  unfold oembed_apply_one
  rw [if_pos h]

theorem oembed_apply_one_key_missing (v : OembedVariant) (item : OembedItem)
    (r : OembedResponse) (m : OembedMapping)
    (hhas : hasattr item (unpackMapping m).2 = true)
    (hget : assocGet r (unpackMapping m).1 = none) :
    oembed_apply_one v item (some r) m =
      (item, some (.keyError (unpackMapping m).1)) := by
  unfold oembed_apply_one
  rw [if_pos hhas]
  dsimp only
  rw [hget]

theorem oembed_apply_one_key_found (v : OembedVariant) (item : OembedItem)
    (r : OembedResponse) (m : OembedMapping) (value : OValue)
    (hhas : hasattr item (unpackMapping m).2 = true)
    (hget : assocGet r (unpackMapping m).1 = some value) :
    oembed_apply_one v item (some r) m =
      (setattr item (unpackMapping m).2
        (v.oembed_clean_value (unpackMapping m).2 value), none) := by
  unfold oembed_apply_one
  rw [if_pos hhas]
  dsimp only
  rw [hget]

/-- Core of C7: when every mapped local attribute exists and some mapped
remote key is absent from the response, the mapping loop raises. -/
theorem oembed_map_go_missing_key (v : OembedVariant) (r : OembedResponse) :
    ∀ (ms : List OembedMapping) (item : OembedItem),
      (∀ m ∈ ms, hasattr item (unpackMapping m).2 = true) →
      (∃ m ∈ ms, assocGet r (unpackMapping m).1 = none) →
      (oembed_map_go v (some r) item ms).2.isSome = true := by
  intro ms
  induction ms with
  | nil =>
      intro item _ hex
      simp at hex
  | cons m ms ih =>
      intro item hhas hex
      have hm : hasattr item (unpackMapping m).2 = true :=
        hhas m (List.mem_cons_self m ms)
      rcases hget : assocGet r (unpackMapping m).1 with _ | value
      · unfold oembed_map_go
        rw [oembed_apply_one_key_missing v item r m hm hget]
        rfl
      · unfold oembed_map_go
        rw [oembed_apply_one_key_found v item r m value hm hget]
        apply ih
        · intro m2 hm2
          exact hasattr_setattr item (unpackMapping m).2 (unpackMapping m2).2 _
            (hhas m2 (List.mem_cons_of_mem m hm2))
        · rcases hex with ⟨mx, hmx, hgx⟩
          rcases List.mem_cons.mp hmx with rfl | hmx2
          · rw [hget] at hgx
            cases hgx
          · exact ⟨mx, hmx2, hgx⟩

/-- C7: a field-mapping entry naming a remote key absent from the
provider's response makes the refresh raise (the error is never
suppressed), both on a stale-triggered load and on a save-triggered
refresh; a failed save persists nothing. -/
theorem c7_missing_key_error_propagates (v : OembedVariant)
    (item : OembedItem) (r : OembedResponse) (now t : Int) (k : Nat)
    (saved : List OembedItem)
    (Hhas : ∀ m ∈ v.oembed_map, hasattr item (unpackMapping m).2 = true)
    (Hmiss : ∃ m ∈ v.oembed_map, assocGet r (unpackMapping m).1 = none)
    (hpk : item.pk = some k) (hupd : item.date_updated = some t)
    (hstale : now > t + item.cache_age) :
    (oembed_update v item now (.success r)).2.isSome = true ∧
    (oembed_load v item now (.success r)).2.isSome = true ∧
    (oembed_save v item now (.success r) saved).2.isSome = true ∧
    (oembed_save v item now (.success r) saved).1.2 = saved := by
  have hup : (oembed_update v item now (.success r)).2.isSome = true := by
    unfold oembed_update oembed_map_values
    simp only [oembed_retrieve]
    exact oembed_map_go_missing_key v r v.oembed_map
      { item with date_updated := some now }
      (fun m hm => Hhas m hm) Hmiss
  refine ⟨hup, ?_, ?_, ?_⟩
  · unfold oembed_load
    rw [hpk]
    dsimp only
    rw [hupd]
    dsimp only
    rw [if_pos hstale]
    exact hup
  · rcases hu : oembed_update v item now (.success r) with ⟨item1, err⟩
    rw [hu] at hup
    cases err with
    | none => simp at hup
    | some e =>
        unfold oembed_save
        rw [hu]
        rfl
  · rcases hu : oembed_update v item now (.success r) with ⟨item1, err⟩
    rw [hu] at hup
    cases err with
    | none => simp at hup
    | some e =>
        unfold oembed_save
        rw [hu]

/-- C3: with `cache_age = 3600` and `date_updated = T`, a load at
`T + 3599` performs no refresh and returns the instance unchanged, while
a load at `T + 3601` triggers the refresh (stamping `date_updated` with
the load time), whatever the remote outcome. -/
theorem c3_freshness_boundary (v : OembedVariant) (item : OembedItem)
    (k : Nat) (T : Int) (remote : RemoteOutcome)
    (hpk : item.pk = some k) (hage : item.cache_age = 3600)
    (hupd : item.date_updated = some T) :
    oembed_load v item (T + 3599) remote = (item, none) ∧
    (oembed_load v item (T + 3601) remote).1.date_updated =
      some (T + 3601) := by
  constructor
  · unfold oembed_load
    rw [hpk]
    dsimp only
    rw [hupd]
    dsimp only
    rw [hage, if_neg (by omega)]
  · unfold oembed_load
    rw [hpk]
    dsimp only
    rw [hupd]
    dsimp only
    rw [hage, if_pos (by omega)]
    exact oembed_update_date v item (T + 3601) remote

/-- C9: `save` on an oEmbed-backed item always performs the refresh
attempt first — the result item is exactly the refresh's output, with
`date_updated` stamped to now regardless of freshness — and persists the
refreshed item only when the refresh raised no error. -/
theorem c9_save_refreshes_then_persists (v : OembedVariant)
    (item : OembedItem) (now : Int) (remote : RemoteOutcome)
    (saved : List OembedItem) :
    (oembed_save v item now remote saved).1.1 =
      (oembed_update v item now remote).1 ∧
    (oembed_save v item now remote saved).1.1.date_updated = some now ∧
    (oembed_save v item now remote saved).1.2 =
      (match (oembed_update v item now remote).2 with
       | none => saved ++ [(oembed_update v item now remote).1]
       | some _ => saved) ∧
    (oembed_save v item now remote saved).2 =
      (oembed_update v item now remote).2 := by
  have hdate := oembed_update_date v item now remote
  rcases hu : oembed_update v item now remote with ⟨item1, err⟩
  rw [hu] at hdate
  unfold oembed_save
  rw [hu]
  cases err with
  | none => exact ⟨rfl, hdate, rfl, rfl⟩
  | some e => exact ⟨rfl, hdate, rfl, rfl⟩

/-- C10: a persisted instance whose `date_updated` is null fails during
the freshness check on load (the expiry computation adds the cache age to
the null timestamp), instead of skipping the refresh. -/
theorem c10_null_date_updated_load_raises (v : OembedVariant)
    (item : OembedItem) (now : Int) (remote : RemoteOutcome) (k : Nat)
    (hpk : item.pk = some k) (hupd : item.date_updated = none) :
    oembed_load v item now remote = (item, some .typeError) := by
  unfold oembed_load
  rw [hpk]
  dsimp only
  rw [hupd]

/-! ### C8: how mapping entries are applied -/

/-- An entry whose bare-string form does not hit the two-character
tuple-unpacking quirk of `prop, field = mapping`. -/
def stringEntryOk : OembedMapping → Bool
  | .name s => s.length != 2
  | .pair _ _ => true

theorem base_map_entries_ok :
    ∀ m ∈ base_oembed_map, stringEntryOk m = true := by decide

theorem photo_map_entries_ok :
    ∀ m ∈ photo_oembed_map, stringEntryOk m = true := by decide

theorem video_map_entries_ok :
    ∀ m ∈ video_oembed_map, stringEntryOk m = true := by decide

theorem rich_map_entries_ok :
    ∀ m ∈ rich_oembed_map, stringEntryOk m = true := by decide

theorem unpack_entry_forms (m : OembedMapping) (h : stringEntryOk m = true) :
    (∀ p f, m = .pair p f → unpackMapping m = (p, f)) ∧
    (∀ s, m = .name s → unpackMapping m = (s, s)) := by
  constructor
  · rintro p f rfl
    rfl
  · rintro s rfl
    simp only [stringEntryOk, bne_iff_ne, ne_eq] at h
    simp [unpackMapping, h]

/-- C8: for the declared variants, a pair entry maps the remote key to
the named local attribute and a bare name is used for both sides; a value
is assigned only when the local attribute exists, it first passes through
the variant's transform hook, and the declared variants all use the
default identity transform. -/
theorem c8_mapping_entry_application :
    (∀ v ∈ declaredVariants, ∀ m ∈ v.oembed_map,
      (∀ p f, m = .pair p f → unpackMapping m = (p, f)) ∧
      (∀ s, m = .name s → unpackMapping m = (s, s))) ∧
    (∀ (v : OembedVariant) (item : OembedItem)
      (response : Option OembedResponse) (m : OembedMapping),
        hasattr item (unpackMapping m).2 = false →
          oembed_apply_one v item response m = (item, none)) ∧
    (∀ (v : OembedVariant) (item : OembedItem) (r : OembedResponse)
      (m : OembedMapping) (value : OValue),
        hasattr item (unpackMapping m).2 = true →
        assocGet r (unpackMapping m).1 = some value →
          oembed_apply_one v item (some r) m =
            (setattr item (unpackMapping m).2
              (v.oembed_clean_value (unpackMapping m).2 value), none)) ∧
    (∀ v ∈ declaredVariants, ∀ (f : String) (value : OValue),
      v.oembed_clean_value f value = value) := by
  refine ⟨?_, ?_, ?_, ?_⟩
  · intro v hv
    have hok : ∀ m ∈ v.oembed_map, stringEntryOk m = true := by
      simp only [declaredVariants, List.mem_cons, List.mem_singleton] at hv
      rcases hv with rfl | rfl | rfl | rfl | rfl | hemp
      · exact base_map_entries_ok
      · exact photo_map_entries_ok
      · exact video_map_entries_ok
      · exact base_map_entries_ok
      · exact rich_map_entries_ok
      · exact absurd hemp (List.not_mem_nil v)
    intro m hm
    exact unpack_entry_forms m (hok m hm)
  · intro v item response m h
    exact oembed_apply_one_no_attr v item response m h
  · intro v item r m value h1 h2
    exact oembed_apply_one_key_found v item r m value h1 h2
  · intro v hv f value
    simp only [declaredVariants, List.mem_cons, List.mem_singleton] at hv
    rcases hv with rfl | rfl | rfl | rfl | rfl | hemp
    · rfl
    · rfl
    · rfl
    · rfl
    · rfl
    · exact absurd hemp (List.not_mem_nil v)

/-! ### Concrete oEmbed sample data and witnesses -/

def sampleBaseOembedItem : OembedItem :=
  { pk := some 2, cache_age := 3600, date_updated := some 0,
    attrs := initAttrs baseOembedFields }

def samplePhotoItem : OembedItem :=
  { pk := some 1, cache_age := 86400, date_updated := some 0,
    attrs := initAttrs photoOembedFields }

def c10Item : OembedItem :=
  { pk := some 3, cache_age := 3600, date_updated := none,
    attrs := initAttrs baseOembedFields }

def c7Response : OembedResponse :=
  [("version", OValue.str "1.0"), ("provider_name", OValue.str "Twitter")]

/-- A persisted, stale base-variant item with previously cached provider
metadata. -/
def c1StaleItem : OembedItem :=
  { pk := some 1, cache_age := 3600, date_updated := some 0,
    attrs := [("caption", OValue.null), ("version", OValue.str "1.0"),
              ("provider_name", OValue.str "Twitter"),
              ("provider_url", OValue.str "http://twitter.com")] }

/-- C1 (code bug): loading a stale item whose provider raises a
transport-level HTTP error under the default suppression policy leaves
the cached field values untouched and advances `date_updated`, but
raises a TypeError to the caller — the suppressed `None` response is
subscripted in `oembed_map_values` — instead of completing silently with
the stale-but-available semantics the suppression flag is meant to
provide. -/
theorem c1_stale_http_error_raises :
    oembed_load baseOembedVariant c1StaleItem 7200 .httpError =
      ({ c1StaleItem with date_updated := some 7200 }, some .typeError) := by
  decide

theorem c3_freshness_boundary_witness :
    oembed_load baseOembedVariant sampleBaseOembedItem (0 + 3599)
      (.success []) = (sampleBaseOembedItem, none) ∧
    (oembed_load baseOembedVariant sampleBaseOembedItem (0 + 3601)
      (.success [])).1.date_updated = some (0 + 3601) :=
  c3_freshness_boundary baseOembedVariant sampleBaseOembedItem 2 0
    (.success []) rfl rfl rfl

theorem c7_missing_key_error_propagates_witness :
    (oembed_update photoOembedVariant samplePhotoItem 100000
      (.success c7Response)).2.isSome = true ∧
    (oembed_load photoOembedVariant samplePhotoItem 100000
      (.success c7Response)).2.isSome = true ∧
    (oembed_save photoOembedVariant samplePhotoItem 100000
      (.success c7Response) []).2.isSome = true ∧
    (oembed_save photoOembedVariant samplePhotoItem 100000
      (.success c7Response) []).1.2 = [] :=
  c7_missing_key_error_propagates photoOembedVariant samplePhotoItem
    c7Response 100000 0 1 [] (by decide) (by decide) rfl rfl (by decide)

theorem c8_mapping_entry_application_witness :
    ((∀ p f, OembedMapping.pair "url" "image_url" = .pair p f →
        unpackMapping (.pair "url" "image_url") = (p, f)) ∧
      (∀ s, OembedMapping.pair "url" "image_url" = .name s →
        unpackMapping (.pair "url" "image_url") = (s, s))) ∧
    oembed_apply_one photoOembedVariant samplePhotoItem
        (some [("url", OValue.str "http://img")]) (.pair "url" "image_url") =
      (setattr samplePhotoItem "image_url"
        (photoOembedVariant.oembed_clean_value "image_url"
          (OValue.str "http://img")), none) ∧
    photoOembedVariant.oembed_clean_value "width" (OValue.int 5) =
      OValue.int 5 :=
  ⟨c8_mapping_entry_application.1 photoOembedVariant
      (by unfold declaredVariants
          exact List.mem_cons_of_mem _ (List.mem_cons_self _ _))
      (.pair "url" "image_url") (by decide),
   c8_mapping_entry_application.2.2.1 photoOembedVariant samplePhotoItem
      [("url", OValue.str "http://img")] (.pair "url" "image_url")
      (OValue.str "http://img") (by decide) (by decide),
   c8_mapping_entry_application.2.2.2 photoOembedVariant
      (by unfold declaredVariants
          exact List.mem_cons_of_mem _ (List.mem_cons_self _ _))
      "width" (OValue.int 5)⟩

theorem c9_save_refreshes_then_persists_witness :
    (oembed_save baseOembedVariant sampleBaseOembedItem 7200 .httpError
      []).1.1 = (oembed_update baseOembedVariant sampleBaseOembedItem 7200
        .httpError).1 ∧
    (oembed_save baseOembedVariant sampleBaseOembedItem 7200 .httpError
      []).1.1.date_updated = some 7200 ∧
    (oembed_save baseOembedVariant sampleBaseOembedItem 7200 .httpError
      []).1.2 =
      (match (oembed_update baseOembedVariant sampleBaseOembedItem 7200
        .httpError).2 with
       | none => [] ++ [(oembed_update baseOembedVariant sampleBaseOembedItem
          7200 .httpError).1]
       | some _ => []) ∧
    (oembed_save baseOembedVariant sampleBaseOembedItem 7200 .httpError
      []).2 = (oembed_update baseOembedVariant sampleBaseOembedItem 7200
        .httpError).2 :=
  c9_save_refreshes_then_persists baseOembedVariant sampleBaseOembedItem
    7200 .httpError []

theorem c10_null_date_updated_load_raises_witness :
    oembed_load baseOembedVariant c10Item 50 .httpError =
      (c10Item, some .typeError) :=
  c10_null_date_updated_load_raises baseOembedVariant c10Item 50
    .httpError 3 rfl rfl
